import Mathlib

/-!
Verification of the session-lifecycle and request-serialization engine of
claude-search-proxy, shallowly embedded from the TypeScript sources
(src/session.ts, src/claude.ts, src/types.ts).

Modelling conventions:
- Session ids (UUID strings produced by randomUUID) are modelled as naturals
  handed out by a counter field `fresh`; distinctness of freshly generated
  ids is the only property of UUIDs the code relies on.
- The injected executor (ClaudeExecutor) is an oracle: the outcome of each
  invocation (success or an error message) is an input to the model.
- Event-loop asynchrony: the drain loop runs tasks one at a time; the
  background pre-warm ping is modelled by returning the fired ping's session
  id from the step, its later settlement by explicit `preWarmResolve` /
  `preWarmReject` steps, exactly mirroring the `.then` / `.catch` handlers.
-/

namespace ClaudeSearchProxy

/-- Maximum queued requests before rejecting (src/types.ts, MAX_QUEUE_SIZE). -/
def MAX_QUEUE_SIZE : Nat := 50

/-- One character of the model-name allow-list `[a-zA-Z0-9._-]`
(src/types.ts, MODEL_NAME_RE). `Char.isAlphanum` is exactly the ASCII
ranges a-z, A-Z, 0-9, matching the character class of the regex. -/
def isModelNameChar (c : Char) : Bool :=
  c.isAlphanum || c == '.' || c == '_' || c == '-'

/-- The test `MODEL_NAME_RE.test model` for the anchored regex
`^[a-zA-Z0-9._-]+$`: the string is nonempty and every character is in the
allow-list (src/types.ts line 15). -/
def modelNameTest (model : String) : Bool :=
  !model.isEmpty && model.data.all isModelNameChar

/-- Argument vector construction (src/claude.ts, buildClaudeArgs). -/
def buildClaudeArgs (sessionId : String) (isFirstSearch : Bool)
    (systemPrompt : String) (model : String) : List String :=
  let args := ["-p", "--output-format", "json", "--allowedTools", "WebSearch",
    "--model", model]
  if isFirstSearch then
    args ++ ["--session-id", sessionId, "--append-system-prompt", systemPrompt]
  else
    args ++ ["--resume", sessionId]

/-- The process invocation executeClaude is about to perform once validation
has passed: the command name and its argument vector. -/
structure SpawnPlan where
  cmd : String
  args : List String
deriving Repr, DecidableEq

/-- The phase of executeClaude that runs before any process exists
(src/claude.ts lines 298-321): validate the model name, then build the
argument vector for `spawn('claude', args)`. An error here means no process
is ever spawned. -/
def executeClaudePlan (model : String) (sessionId : String)
    (isFirstSearch : Bool) (systemPrompt : String) : Except String SpawnPlan :=
  if modelNameTest model then
    Except.ok { cmd := "claude",
                args := buildClaudeArgs sessionId isFirstSearch systemPrompt model }
  else
    Except.error
      ("Invalid model name: must contain only alphanumeric characters, hyphens, dots, and underscores")

/-- The settlement guard of executeClaude (src/claude.ts, `settle`): the
first delivered outcome is recorded; once a state holds an outcome, later
settlement attempts leave it untouched. -/
def settle {α : Type} (state : Option α) (outcome : α) : Option α :=
  match state with
  | some delivered => some delivered
  | none => some outcome

/-- Folding every handler that fires (timeout, close, error, stdin failure),
in firing order, through the settlement guard, starting unsettled. -/
def deliverAll {α : Type} (fired : List α) : Option α :=
  fired.foldl settle none

/-- Session state (src/types.ts, SessionState): opaque session id (absent
before first use) and number of successful searches performed with it. -/
structure SessionState where
  sessionId : Option Nat
  searchCount : Nat
deriving Repr, DecidableEq

/-- The SessionManager fields that the claims are about (src/session.ts):
current session, the pre-warmed PendingSession slot, the pre-warm in-flight
flag, the warm-up idempotence flag, plus the model of the randomUUID supply. -/
structure ManagerState where
  session : SessionState
  nextSession : Option SessionState
  preWarmingInProgress : Bool
  warmupComplete : Bool
  fresh : Nat
deriving Repr, DecidableEq

/-- A freshly constructed SessionManager. -/
def initialManager : ManagerState :=
  { session := { sessionId := none, searchCount := 0 },
    nextSession := none,
    preWarmingInProgress := false,
    warmupComplete := false,
    fresh := 0 }

/-- initializeSession (src/session.ts): install a brand-new session with a
fresh id and a zero counter. -/
def initializeSession (s : ManagerState) : ManagerState :=
  { s with session := { sessionId := some s.fresh, searchCount := 0 },
           fresh := s.fresh + 1 }

/-- shouldRotateSession (src/session.ts). -/
def shouldRotateSession (maxSessionSearches : Nat) (s : ManagerState) : Bool :=
  decide (s.session.searchCount ≥ maxSessionSearches)

/-- rotateSession (src/session.ts): consume the pre-warmed session if one is
ready, otherwise cold-rotate via initializeSession. The artifact cleanup it
also fires is filesystem-only and touches no manager state. -/
def rotateSession (s : ManagerState) : ManagerState :=
  match s.nextSession with
  | some ns => { s with session := ns, nextSession := none }
  | none => initializeSession s

/-- maybePreWarmNextSession (src/session.ts): when within 2 searches of the
rotation limit and nothing is pending or in flight, fire a background ping
against a fresh id. Returns the fired ping id, if any; its settlement is a
separate event. The subtraction is on JavaScript numbers, hence over Int. -/
def maybePreWarmNextSession (maxSessionSearches : Nat) (s : ManagerState) :
    ManagerState × Option Nat :=
  if decide ((maxSessionSearches : Int) - (s.session.searchCount : Int) > 2)
      || s.preWarmingInProgress || s.nextSession.isSome then
    (s, none)
  else
    ({ s with preWarmingInProgress := true, fresh := s.fresh + 1 }, some s.fresh)

/-- The `.then` handler of the pre-warm ping (src/session.ts): on success the
pinged id becomes the PendingSession with searchCount 1. -/
def preWarmResolve (newSessionId : Nat) (s : ManagerState) : ManagerState :=
  { s with nextSession := some { sessionId := some newSessionId, searchCount := 1 },
           preWarmingInProgress := false }

/-- The `.catch` handler of the pre-warm ping (src/session.ts): the failed
ping is discarded, only the in-flight flag is cleared. -/
def preWarmReject (s : ManagerState) : ManagerState :=
  { s with preWarmingInProgress := false }

/-- The executor invocation parameters the claims talk about. -/
structure Invocation where
  sessionId : Nat
  isFirstSearch : Bool
deriving Repr, DecidableEq

/-- The first half of executeSearch (src/session.ts lines 155-163), run
before the executor is invoked: rotate when the limit is reached, then
initialize when no session exists. -/
def rotateOrInit (maxSessionSearches : Nat) (s : ManagerState) : ManagerState :=
  let s1 := if shouldRotateSession maxSessionSearches s then rotateSession s else s
  if s1.session.sessionId.isNone then initializeSession s1 else s1

/-- The executor invocation executeSearch performs, read off the state at the
moment of the call (src/session.ts lines 165-166). -/
def invocationOf (s : ManagerState) : Invocation :=
  { sessionId := s.session.sessionId.getD 0,
    isFirstSearch := s.session.searchCount == 0 }

/-- executeSearch (src/session.ts lines 154-195) with the outcome of this
foreground executor call given by `ok`. Returns the invocation made, the
resulting state, and the id of a background pre-warm ping when one was fired
(only on the success path). On failure the error is rethrown and nothing
after the await runs. -/
def executeSearch (maxSessionSearches : Nat) (ok : Bool) (s : ManagerState) :
    Invocation × ManagerState × Option Nat :=
  let s1 := rotateOrInit maxSessionSearches s
  let inv := invocationOf s1
  if ok then
    let s2 := { s1 with
      session := { s1.session with searchCount := s1.session.searchCount + 1 } }
    let r := maybePreWarmNextSession maxSessionSearches s2
    (inv, r.1, r.2)
  else
    (inv, s1, none)

/-- The admission phase of execute (src/session.ts lines 110-125): reject
synchronously when the queue is at capacity — this reads only the queue
length, so nothing is enqueued and the session state is not touched —
otherwise push the task at the back. Tasks are modelled by the outcome
their executor call will produce. The drain it then kicks off is modelled
separately by processQueue (the kick is a no-op while a drain is running,
which is the situation of the queued-submissions claims). -/
def execute (s : ManagerState) (queue : List Bool) (task : Bool) :
    Except String (ManagerState × List Bool) :=
  if queue.length ≥ MAX_QUEUE_SIZE then
    Except.error ("Request queue full, try again later")
  else
    Except.ok (s, queue ++ [task])

/-- A sequence of execute submissions arriving while earlier tasks are still
pending: each is admitted (or rejected) in order. -/
def submitAll (s : ManagerState) (queue : List Bool) :
    List Bool → Except String (ManagerState × List Bool)
  | [] => Except.ok (s, queue)
  | t :: ts =>
    match execute s queue t with
    | Except.error e => Except.error e
    | Except.ok sq => submitAll sq.1 sq.2 ts

/-- processQueue (src/session.ts lines 130-149): shift the head task,
execute it, deliver its own outcome to its own caller (resolve on success,
reject on failure), and continue with the rest regardless. The returned list
pairs each invocation with the outcome delivered to that caller, in
execution order. Background ping settlement never touches the queue or the
delivered outcomes, so its schedule is irrelevant here and fired pings are
dropped. -/
def processQueue (maxSessionSearches : Nat) (s : ManagerState) :
    List Bool → ManagerState × List (Invocation × Bool)
  | [] => (s, [])
  | ok :: rest =>
    let r := executeSearch maxSessionSearches ok s
    let d := processQueue maxSessionSearches r.2.1 rest
    (d.1, (r.1, ok) :: d.2)

/-- JavaScript String.prototype.startsWith on character lists. -/
def startsWithChars : List Char → List Char → Bool
  | [], _ => true
  | _ :: _, [] => false
  | a :: as, b :: bs => a == b && startsWithChars as bs

/-- Substring search at every position. -/
def includesFrom (needle : List Char) : List Char → Bool
  | [] => startsWithChars needle []
  | c :: rest => startsWithChars needle (c :: rest) || includesFrom needle rest

/-- JavaScript String.prototype.includes: `strIncludes haystack needle`. -/
def strIncludes (haystack needle : String) : Bool :=
  includesFrom needle.data haystack.data

/-- The recoverable-collision marker warmUp looks for in error messages
(src/session.ts line 96). -/
def alreadyInUseMarker : String := "already in use"

/-- The retry loop of warmUp (src/session.ts lines 67-101), with the
executor outcome of each attempt given by `exec`. `fuel` counts the loop
iterations left (3 at entry), `attempt` is the loop index. Each iteration
installs a fresh session; on success the counter is bumped and the
idempotence flag set; on failure the session is reset to unset. In the
source, the catch block guards its `continue` statement, but control
that does not take the `continue` still falls off the end of the catch and
reaches the next loop iteration, so both branches of that guard proceed to
the next attempt and the guard only selects a log line (in the source the
guard reads: msg.includes with the collision marker, and attempt below
maxRetries - 1). Returns the final state and the session ids of the
executor invocations made, in order. -/
def warmUpAttempts (exec : Nat → Except String Unit) :
    Nat → Nat → ManagerState → ManagerState × List Nat
  | _, 0, s => (s, [])
  | attempt, fuel + 1, s =>
    let s1 := initializeSession s
    let sid := s.fresh
    match exec attempt with
    | Except.ok _ =>
      ({ s1 with
          session := { s1.session with searchCount := s1.session.searchCount + 1 },
          warmupComplete := true }, [sid])
    | Except.error msg =>
      let s2 := { s1 with session := { sessionId := none, searchCount := 0 } }
      if strIncludes msg alreadyInUseMarker && decide (attempt < 3 - 1) then
        let (s3, rest) := warmUpAttempts exec (attempt + 1) fuel s2
        (s3, sid :: rest)
      else
        let (s3, rest) := warmUpAttempts exec (attempt + 1) fuel s2
        (s3, sid :: rest)

/-- warmUp (src/session.ts lines 63-104): idempotence guard, then up to
maxRetries = 3 attempts. Never rejects: every outcome is a normal return. -/
def warmUp (exec : Nat → Except String Unit) (s : ManagerState) :
    ManagerState × List Nat :=
  if s.warmupComplete then (s, []) else warmUpAttempts exec 0 3 s

/-- getSessionInfo (src/session.ts lines 336-342). -/
structure SessionInfo where
  sessionId : Option Nat
  searchCount : Nat
  maxSearches : Nat
deriving Repr, DecidableEq

/-- getSessionInfo (src/session.ts lines 336-342). -/
def getSessionInfo (maxSessionSearches : Nat) (s : ManagerState) : SessionInfo :=
  { sessionId := s.session.sessionId,
    searchCount := s.session.searchCount,
    maxSearches := maxSessionSearches }

/-- Sequentially awaited execute calls, every executor invocation (foreground
and background ping) succeeding, with the event loop letting each fired ping
settle before the next call is submitted — the schedule of the test harness
in the repository, whose mock executor resolves immediately. Returns the
final state and the foreground invocations in order. -/
def runSeqPingResolves (maxSessionSearches : Nat) :
    Nat → ManagerState → ManagerState × List Invocation
  | 0, s => (s, [])
  | n + 1, s =>
    let r := executeSearch maxSessionSearches true s
    let s2 := match r.2.2 with
      | some sid => preWarmResolve sid r.2.1
      | none => r.2.1
    let d := runSeqPingResolves maxSessionSearches n s2
    (d.1, r.1 :: d.2)

/-- The same sequential schedule, but with every fired background ping still
unsettled when the later calls run (a slow ping). -/
def runSeqPingPending (maxSessionSearches : Nat) :
    Nat → ManagerState → ManagerState × List Invocation
  | 0, s => (s, [])
  | n + 1, s =>
    let r := executeSearch maxSessionSearches true s
    let d := runSeqPingPending maxSessionSearches n r.2.1
    (d.1, r.1 :: d.2)

/-! Helper lemmas shared by the claim theorems. -/

/-- Once an outcome is recorded, folding further settlement attempts through
the guard changes nothing. -/
theorem foldl_settle_some {α : Type} (x : α) (l : List α) :
    List.foldl settle (some x) l = some x := by
  induction l with
  | nil => rfl
  | cons b t ih => simpa [List.foldl, settle] using ih

/-- maybePreWarmNextSession never touches the current session or the pending
slot; it only flips the in-flight flag and draws a fresh id. -/
theorem maybePreWarm_preserves (m : Nat) (s : ManagerState) :
    (maybePreWarmNextSession m s).1.session = s.session ∧
    (maybePreWarmNextSession m s).1.nextSession = s.nextSession := by
  unfold maybePreWarmNextSession
  split <;> exact ⟨rfl, rfl⟩

/-- The invocation executeSearch makes is read off the state produced by the
rotation/initialization phase, on both the success and the failure path. -/
theorem executeSearch_fst (maxS : Nat) (ok : Bool) (s : ManagerState) :
    (executeSearch maxS ok s).1 = invocationOf (rotateOrInit maxS s) := by
  cases ok <;> rfl

/-- When the rotation limit has not been reached, the rotation/initialization
phase leaves the pending slot alone. -/
theorem rotateOrInit_nextSession (maxS : Nat) (s : ManagerState)
    (h : shouldRotateSession maxS s = false) :
    (rotateOrInit maxS s).nextSession = s.nextSession := by
  unfold rotateOrInit
  rw [h]
  simp only [Bool.false_eq_true, if_false]
  split <;> rfl

/-- Generalized admission lemma: while there is room for all of them, a burst
of submissions is appended to the queue in submission order, and the session
state is never touched. -/
theorem submitAll_ok (tasks : List Bool) :
    ∀ (s : ManagerState) (queue : List Bool),
      queue.length + tasks.length ≤ MAX_QUEUE_SIZE →
      submitAll s queue tasks = Except.ok (s, queue ++ tasks) := by
  induction tasks with
  | nil => intro s q _; simp [submitAll]
  | cons t ts ih =>
    intro s q h
    have hq : ¬ q.length ≥ MAX_QUEUE_SIZE := by
      simp only [List.length_cons] at h
      omega
    have hstep := ih s (q ++ [t]) (by simp at h ⊢; omega)
    simp [submitAll, execute, hq, hstep]

/-- Each drained task is delivered exactly its own executor outcome,
independently of the outcomes of the tasks before it. -/
theorem processQueue_map_snd (maxS : Nat) (tasks : List Bool) :
    ∀ s, (processQueue maxS s tasks).2.map Prod.snd = tasks := by
  induction tasks with
  | nil => intro s; rfl
  | cons t ts ih => intro s; simp [processQueue, ih]

/-- Draining delivers one outcome per queued task. -/
theorem processQueue_length (maxS : Nat) (tasks : List Bool) :
    ∀ s, (processQueue maxS s tasks).2.length = tasks.length := by
  induction tasks with
  | nil => intro s; rfl
  | cons t ts ih => intro s; simp [processQueue, ih]

/-- The drain loop is strictly sequential: a split of the queue is processed
by fully draining the front segment first and only then the back segment,
starting from the state the front segment produced. -/
theorem processQueue_append (maxS : Nat) (xs ys : List Bool) :
    ∀ s, processQueue maxS s (xs ++ ys) =
      ((processQueue maxS (processQueue maxS s xs).1 ys).1,
        (processQueue maxS s xs).2 ++
          (processQueue maxS (processQueue maxS s xs).1 ys).2) := by
  induction xs with
  | nil => intro s; simp [processQueue]
  | cons x xs ih => intro s; simp [processQueue, ih]

/-! Claim theorems. -/

/-- C1: a burst of at most MAX_QUEUE_SIZE execute submissions arriving while
earlier tasks are pending is all admitted, in submission (FIFO) order; the
drain loop then executes the tasks strictly one at a time in that order
(splitting the queue anywhere, the front part runs to completion before the
back part starts), delivers to each caller exactly the outcome of its own
executor call, and a failing task rejects only its own caller — the drain
continues and every later task still runs and is delivered its own outcome. -/
theorem execute_fifo_isolated_failures (tasks : List Bool)
    (h : tasks.length ≤ MAX_QUEUE_SIZE) :
    (∀ s : ManagerState, submitAll s [] tasks = Except.ok (s, tasks)) ∧
    (∀ (maxS : Nat) (s : ManagerState),
      (processQueue maxS s tasks).2.map Prod.snd = tasks) ∧
    (∀ (maxS : Nat) (s : ManagerState),
      (processQueue maxS s tasks).2.length = tasks.length) ∧
    (∀ (maxS : Nat) (s : ManagerState) (xs ys : List Bool), tasks = xs ++ ys →
      (processQueue maxS s tasks).2 =
        (processQueue maxS s xs).2 ++
          (processQueue maxS (processQueue maxS s xs).1 ys).2) := by
  refine ⟨fun s => ?_, fun maxS s => processQueue_map_snd maxS tasks s,
    fun maxS s => processQueue_length maxS tasks s, fun maxS s xs ys hsplit => ?_⟩
  · have := submitAll_ok tasks s [] (by simpa using h)
    simpa using this
  · subst hsplit
    rw [processQueue_append maxS xs ys s]

/-- C1 witness: three tasks, the middle one failing, are all admitted in
order and each caller receives the outcome of its own task. -/
theorem execute_fifo_isolated_failures_witness :
    (submitAll initialManager [] [true, false, true] =
      Except.ok (initialManager, [true, false, true])) ∧
    ((processQueue 3 initialManager [true, false, true]).2.map Prod.snd =
      [true, false, true]) ∧
    ((processQueue 3 initialManager [true, false, true]).2 =
      (processQueue 3 initialManager [true]).2 ++
        (processQueue 3 (processQueue 3 initialManager [true]).1
          [false, true]).2) :=
  ⟨(execute_fifo_isolated_failures [true, false, true] (by decide)).1
      initialManager,
    (execute_fifo_isolated_failures [true, false, true] (by decide)).2.1
      3 initialManager,
    (execute_fifo_isolated_failures [true, false, true] (by decide)).2.2.2
      3 initialManager [true] [false, true] rfl⟩

/-- C2 counterexample: fresh SessionManager, maxSessionSearches = 3, four
sequentially awaited calls, every executor invocation succeeding (so the
background pre-warm ping fired after call 1 has settled by call 4). Calls
1-3 report isFirstSearch true, false, false as claimed, but call 4 consumes
the pre-warmed session and reports isFirstSearch = false, not true. -/
theorem fourth_call_first_search_cex :
    ((runSeqPingResolves 3 4 initialManager).2.map Invocation.isFirstSearch =
      [true, false, false, false]) ∧
    ¬ ((runSeqPingResolves 3 4 initialManager).2.map Invocation.isFirstSearch =
      [true, false, false, true]) := by
  decide

/-- C2 amended: fresh SessionManager, maxSessionSearches = 3, four
sequentially awaited calls, every executor invocation succeeding. Calls 1-3
use the same session id (0) with isFirstSearch true, false, false, and call
4 uses a different session id in either schedule; when the pre-warm ping
fired after call 1 has completed by call 4, rotation hands over the
pre-warmed session (id 1, searchCount 1) and call 4 is a resume with
isFirstSearch = false; only when that ping is still pending does call 4
cold-rotate to a brand-new session (id 2) with isFirstSearch = true. -/
theorem fourth_call_rotates_warm_or_cold :
    ((runSeqPingResolves 3 4 initialManager).2 =
      [{ sessionId := 0, isFirstSearch := true },
        { sessionId := 0, isFirstSearch := false },
        { sessionId := 0, isFirstSearch := false },
        { sessionId := 1, isFirstSearch := false }]) ∧
    ((runSeqPingPending 3 4 initialManager).2 =
      [{ sessionId := 0, isFirstSearch := true },
        { sessionId := 0, isFirstSearch := false },
        { sessionId := 0, isFirstSearch := false },
        { sessionId := 2, isFirstSearch := true }]) := by
  decide

/-- C3 counterexample: with maxSessionSearches = 1 and a current session
(id 0) that has already performed its one search, a call whose executor
invocation fails still changes the observable session state: executeSearch
rotates before invoking the executor, so after the failing call the session
id is no longer 0 and searchCount is no longer 1. -/
theorem failing_search_changes_session_cex :
    ((executeSearch 1 false
        { session := { sessionId := some 0, searchCount := 1 },
          nextSession := none, preWarmingInProgress := false,
          warmupComplete := false, fresh := 1 }).2.1.session.sessionId ≠ some 0) ∧
    ((executeSearch 1 false
        { session := { sessionId := some 0, searchCount := 1 },
          nextSession := none, preWarmingInProgress := false,
          warmupComplete := false, fresh := 1 }).2.1.session.searchCount ≠ 1) := by
  decide

/-- C3 amended: relative to the state at the moment the executor is invoked
(that is, after the rotation or initialization executeSearch performs first),
a failing invocation leaves the whole manager state exactly unchanged — in
particular searchCount and the current session id — and the error is the
outcome delivered for that task; a successful invocation increments
searchCount by exactly one and leaves the session id unchanged. -/
theorem failure_leaves_invocation_state (maxS : Nat) (s : ManagerState) :
    ((executeSearch maxS false s).2.1 = rotateOrInit maxS s) ∧
    ((executeSearch maxS false s).1 = invocationOf (rotateOrInit maxS s)) ∧
    ((processQueue maxS s [false]).2.map Prod.snd = [false]) ∧
    ((executeSearch maxS true s).2.1.session.searchCount =
      (rotateOrInit maxS s).session.searchCount + 1) ∧
    ((executeSearch maxS true s).2.1.session.sessionId =
      (rotateOrInit maxS s).session.sessionId) := by
  refine ⟨rfl, executeSearch_fst maxS false s, rfl, ?_, ?_⟩ <;>
    simp [executeSearch, (maybePreWarm_preserves maxS _).1]

/-- C4: when the queue already holds MAX_QUEUE_SIZE (or more) pending tasks,
a further execute call fails immediately with the queue-full error, without
enqueueing anything and with the session state untouched (the admission
check reads only the queue length); and any admitted call only appends its
task, so the queue never exceeds MAX_QUEUE_SIZE tasks. -/
theorem execute_rejects_when_full (s : ManagerState) (queue : List Bool)
    (task : Bool) :
    (queue.length ≥ MAX_QUEUE_SIZE →
      execute s queue task =
        Except.error ("Request queue full, try again later")) ∧
    (∀ (s2 : ManagerState) (q2 : List Bool),
      execute s queue task = Except.ok (s2, q2) →
      s2 = s ∧ q2 = queue ++ [task] ∧ q2.length ≤ MAX_QUEUE_SIZE) := by
  constructor
  · intro h
    simp [execute, h]
  · intro s2 q2 h
    by_cases hq : queue.length ≥ MAX_QUEUE_SIZE
    · simp [execute, hq] at h
    · simp [execute, hq] at h
      obtain ⟨h1, h2⟩ := h
      refine ⟨h1.symm, h2.symm, ?_⟩
      subst h2
      simp only [List.length_append, List.length_singleton]
      unfold MAX_QUEUE_SIZE at hq ⊢
      omega

/-- C4 witness: a queue of exactly 50 pending tasks rejects the next
submission with the queue-full error. -/
theorem execute_rejects_when_full_witness :
    (execute initialManager (List.replicate 50 true) true =
      Except.error ("Request queue full, try again later")) ∧
    (initialManager = initialManager ∧ [true] = [] ++ [true] ∧
      List.length [true] ≤ MAX_QUEUE_SIZE) :=
  ⟨(execute_rejects_when_full initialManager (List.replicate 50 true) true).1
      (by decide),
    (execute_rejects_when_full initialManager [] true).2 initialManager
      [true] rfl⟩

/-- C5: a populated pending-session slot is installed, exactly as stored, by
the very next rotation, which also clears the slot (so it is consumed at
most once); the slot is only ever populated by the pre-warm resolve handler
with searchCount 1; a rotation that finds the slot empty cold-creates a
fresh session with searchCount 0; and while the rotation limit has not been
reached, an execute step (with either outcome) leaves a populated slot in
place for the rotation that will eventually consume it. -/
theorem pending_session_consumed_once :
    (∀ (s : ManagerState) (ns : SessionState), s.nextSession = some ns →
      rotateSession s = { s with session := ns, nextSession := none }) ∧
    (∀ (sid : Nat) (s : ManagerState),
      (preWarmResolve sid s).nextSession =
        some { sessionId := some sid, searchCount := 1 }) ∧
    (∀ s : ManagerState, s.nextSession = none →
      rotateSession s = initializeSession s ∧
      (rotateSession s).session.searchCount = 0 ∧
      (rotateSession s).session.sessionId = some s.fresh) ∧
    (∀ (maxS : Nat) (ok : Bool) (s : ManagerState) (ns : SessionState),
      s.nextSession = some ns → shouldRotateSession maxS s = false →
      (executeSearch maxS ok s).2.1.nextSession = some ns) := by
  refine ⟨fun s ns h => ?_, fun sid s => rfl, fun s h => ?_, ?_⟩
  · unfold rotateSession
    rw [h]
  · unfold rotateSession
    rw [h]
    exact ⟨rfl, rfl, rfl⟩
  · intro maxS ok s ns hns hrot
    have hpre := rotateOrInit_nextSession maxS s hrot
    cases ok with
    | false =>
      show (rotateOrInit maxS s).nextSession = some ns
      rw [hpre, hns]
    | true =>
      show (maybePreWarmNextSession maxS _).1.nextSession = some ns
      rw [(maybePreWarm_preserves maxS _).2]
      show (rotateOrInit maxS s).nextSession = some ns
      rw [hpre, hns]

/-- C5 witness: a manager whose pending slot holds session 7 (searchCount 1)
rotates onto exactly that session and clears the slot; below the limit, a
successful execute step keeps the slot populated. -/
theorem pending_session_consumed_once_witness :
    (rotateSession
        { session := { sessionId := some 3, searchCount := 5 },
          nextSession := some { sessionId := some 7, searchCount := 1 },
          preWarmingInProgress := false, warmupComplete := true, fresh := 9 } =
      { session := { sessionId := some 7, searchCount := 1 },
        nextSession := none, preWarmingInProgress := false,
        warmupComplete := true, fresh := 9 }) ∧
    ((executeSearch 5 true
        { session := { sessionId := some 3, searchCount := 2 },
          nextSession := some { sessionId := some 7, searchCount := 1 },
          preWarmingInProgress := false, warmupComplete := true,
          fresh := 9 }).2.1.nextSession =
      some { sessionId := some 7, searchCount := 1 }) :=
  ⟨pending_session_consumed_once.1 _ _ rfl,
    pending_session_consumed_once.2.2.2 5 true _ _ rfl (by decide)⟩

/-- C6: evaluation of warmUp at the failing input. With an executor whose
every attempt fails with the message "boom" — which does not contain the
collision marker "already in use" — warmUp nevertheless makes three executor
invocations, with the fresh session ids 0, 1 and 2 (the claim, the CHANGELOG
and the comment above the source loop say a non-collision error aborts
warm-up after the first attempt); warm-up then gives up, leaving the session
unset and the warm-up incomplete. -/
theorem warmUp_retries_on_any_error :
    ((warmUp (fun _ => Except.error ("boom")) initialManager).2 = [0, 1, 2]) ∧
    (strIncludes ("boom") alreadyInUseMarker = false) ∧
    ((warmUp (fun _ => Except.error ("boom")) initialManager).1.session =
      { sessionId := none, searchCount := 0 }) ∧
    ((warmUp (fun _ => Except.error ("boom")) initialManager).1.warmupComplete =
      false) := by
  decide

/-- C7: the settlement guard of executeClaude delivers exactly the first
outcome that fires: folding any sequence of handler firings (timeout, close,
error — each delivered through settle) from the unsettled state yields the
head of the sequence, so when both the timeout handler and the exit handler
fire, whichever is second has no effect on the delivered outcome, and a
settled state absorbs every further settlement attempt. -/
theorem settle_delivers_first_outcome_only {α : Type} (fired : List α) :
    deliverAll fired = fired.head? ∧
    (∀ delivered next : α, settle (some delivered) next = some delivered) ∧
    (∀ first second : α, deliverAll [first, second] = some first) := by
  refine ⟨?_, fun d n => rfl, fun a b => rfl⟩
  cases fired with
  | nil => rfl
  | cons a l =>
    show List.foldl settle (settle none a) l = some a
    exact foldl_settle_some a l

/-- C8: executeClaude validates the model name before anything is spawned:
when the model fails the allow-list test (nonempty, characters drawn from
letters, digits, dot, underscore, hyphen) the invocation stops with the
invalid-model error and produces no spawn plan; when the model passes the
test no validation failure is raised and the plan spawns the claude command
with the deterministically built argument vector. -/
theorem executeClaudePlan_validates_model (model sessionId systemPrompt : String)
    (isFirstSearch : Bool) :
    (modelNameTest model = false →
      executeClaudePlan model sessionId isFirstSearch systemPrompt =
        Except.error
          ("Invalid model name: must contain only alphanumeric characters, hyphens, dots, and underscores")) ∧
    (modelNameTest model = true →
      executeClaudePlan model sessionId isFirstSearch systemPrompt =
        Except.ok { cmd := "claude",
                    args := buildClaudeArgs sessionId isFirstSearch
                      systemPrompt model }) := by
  constructor <;> intro h <;> simp [executeClaudePlan, h]

/-- C8 witness: a model name with a space and an exclamation mark is
rejected before any spawn plan exists, and a well-formed model name yields
the spawn plan. -/
theorem executeClaudePlan_validates_model_witness :
    (executeClaudePlan ("bad model!") ("sid") true ("prompt") =
      Except.error
        ("Invalid model name: must contain only alphanumeric characters, hyphens, dots, and underscores")) ∧
    (executeClaudePlan ("claude-sonnet-4-20250514") ("sid") true ("prompt") =
      Except.ok { cmd := "claude",
                  args := buildClaudeArgs ("sid") true ("prompt")
                    ("claude-sonnet-4-20250514") }) :=
  ⟨(executeClaudePlan_validates_model ("bad model!") ("sid") ("prompt") true).1
      (by decide),
    (executeClaudePlan_validates_model ("claude-sonnet-4-20250514") ("sid")
        ("prompt") true).2 (by decide)⟩

/-- C9: the argument vector is a deterministic function of the four inputs:
it always begins with -p, --output-format json, --allowedTools WebSearch,
--model followed by the model; a first search appends --session-id with the
session id and --append-system-prompt with the system prompt, and a resume
appends only --resume with the session id. -/
theorem buildClaudeArgs_shape (sessionId systemPrompt model : String) :
    (buildClaudeArgs sessionId true systemPrompt model =
      ["-p", "--output-format", "json", "--allowedTools", "WebSearch",
        "--model", model, "--session-id", sessionId,
        "--append-system-prompt", systemPrompt]) ∧
    (buildClaudeArgs sessionId false systemPrompt model =
      ["-p", "--output-format", "json", "--allowedTools", "WebSearch",
        "--model", model, "--resume", sessionId]) :=
  ⟨rfl, rfl⟩

/-- C10 counterexample: with maxSessionSearches = 1, after a successful
warm-up the first execute call rotates the warmed session out (its single
search budget is already spent by the warm-up ping) and runs as a first
search on a new session, not as a resume. -/
theorem post_warmup_resume_cex :
    (executeSearch 1 true
        (warmUp (fun _ => Except.ok ()) initialManager).1).1.isFirstSearch =
      true := by
  decide

/-- C10 amended: after a successful warmUp the session counter is 1 (not 0)
and getSessionInfo reports searchCount 1 immediately; provided
maxSessionSearches is greater than 1, the first subsequent execute call is a
resume of the warmed session (isFirstSearch = false, same session id 0);
with maxSessionSearches = 1 the warmed session is instead rotated out first
and that call is a first search. -/
theorem post_warmup_first_call_resumes (maxS : Nat) (h : 1 < maxS) (ok : Bool) :
    ((warmUp (fun _ => Except.ok ()) initialManager).1.session =
      { sessionId := some 0, searchCount := 1 }) ∧
    (getSessionInfo maxS (warmUp (fun _ => Except.ok ()) initialManager).1 =
      { sessionId := some 0, searchCount := 1, maxSearches := maxS }) ∧
    ((executeSearch maxS ok
        (warmUp (fun _ => Except.ok ()) initialManager).1).1 =
      { sessionId := 0, isFirstSearch := false }) := by
  have hstate : (warmUp (fun _ => Except.ok ()) initialManager).1 =
      { session := { sessionId := some 0, searchCount := 1 },
        nextSession := none, preWarmingInProgress := false,
        warmupComplete := true, fresh := 1 } := by decide
  refine ⟨by rw [hstate], by rw [hstate]; rfl, ?_⟩
  rw [executeSearch_fst, hstate]
  have hrot : shouldRotateSession maxS
      { session := { sessionId := some 0, searchCount := 1 },
        nextSession := none, preWarmingInProgress := false,
        warmupComplete := true, fresh := 1 } = false := by
    simp [shouldRotateSession]
    omega
  simp [rotateOrInit, hrot, invocationOf]

/-- C10 witness: with the default-like configuration maxSessionSearches = 3,
the first call after warm-up resumes session 0 with isFirstSearch = false. -/
theorem post_warmup_first_call_resumes_witness :
    (executeSearch 3 true
        (warmUp (fun _ => Except.ok ()) initialManager).1).1 =
      { sessionId := 0, isFirstSearch := false } :=
  (post_warmup_first_call_resumes 3 (by decide) true).2.2

end ClaudeSearchProxy
